import Mathlib

/-!
Shallow embedding of the school expense / uniform inventory tracker
(`enhanced_app.py`), covering the data model (four tables), the stock
ledger (`check_stock_availability`, `update_stock`, the stock form
handler, the sale form handler), the receipt renderer
(`generate_receipt_html`, `format_currency`) and the query gateway
(`execute_query`), together with theorems settling the specification
claims about them.

Money amounts (NUMERIC columns, Python floats fed from the forms) are
modelled as rationals; quantities (INTEGER columns) as integers;
timestamps as an abstract `Nat` tick passed in by the caller.
-/

namespace SchoolTracker

/-- Row of the `uniform_stock` table. -/
structure StockRow where
  item : String
  size : String
  quantity : Int
  unit_cost : Rat
  supplier : String
  invoice_no : String
  last_updated : Nat
deriving Repr, DecidableEq

/-- Row of the `uniform_sales` table (columns of the sale INSERT). -/
structure SaleRow where
  date : String
  student_name : String
  student_class : String
  item : String
  size : String
  quantity : Int
  selling_price : Rat
  payment_mode : String
  reference : String
  receipt_id : String
deriving Repr, DecidableEq

/-- One entry of a receipt's `items_json` list:
`{"name": .., "size": .., "price": .., "quantity": ..}`. -/
structure ReceiptItem where
  name : String
  size : String
  price : Rat
  quantity : Int
deriving Repr, DecidableEq

/-- Row of the `receipts` table (`items_json` kept deserialized). -/
structure ReceiptRow where
  receipt_id : String
  date : String
  customer_name : String
  items : List ReceiptItem
  total_amount : Rat
  payment_mode : String
  reference : String
  issued_by : String
deriving Repr, DecidableEq

/-- Row of the `expenses` table. -/
structure ExpenseRow where
  date : String
  category : String
  description : String
  amount : Rat
  receipt_no : String
deriving Repr, DecidableEq

/-- The four tables of the data store. -/
structure DBState where
  expenses : List ExpenseRow
  uniform_stock : List StockRow
  uniform_sales : List SaleRow
  receipts : List ReceiptRow
deriving Repr, DecidableEq

/-- Python's `str.strip()` (used by the client-side validation
`if size.strip():`): drop leading and trailing whitespace, written over
the character list so it evaluates. -/
def pyStrip (s : String) : String :=
  String.mk (((s.toList.dropWhile Char.isWhitespace).reverse.dropWhile
    Char.isWhitespace).reverse)

/-- Rows of `uniform_stock` matching the key `(item, size)`
(`WHERE item = %s AND size = %s`). -/
def stockMatches (db : DBState) (item size : String) : List StockRow :=
  db.uniform_stock.filter (fun r => r.item == item && r.size == size)

/-- `SELECT quantity FROM uniform_stock WHERE item = %s AND size = %s AND
quantity >= %s` — the fetch performed by `check_stock_availability`. -/
def availabilityRows (db : DBState) (item size : String) (quantity : Int) : List Int :=
  (db.uniform_stock.filter
    (fun r => r.item == item && r.size == size && decide (quantity ≤ r.quantity))).map
    (fun r => r.quantity)

/-- `check_stock_availability`: `bool(result)` where `result` is the
fetched row list, or `None` when `execute_query` failed. -/
def check_stock_availability (result : Option (List Int)) : Bool :=
  match result with
  | none => false
  | some rows => !rows.isEmpty

/-- The availability fetch as returned by the query gateway: `none`
models `execute_query` failing and returning Python `None`. -/
def availabilityQueryResult (gatewayOk : Bool) (db : DBState)
    (item size : String) (quantity : Int) : Option (List Int) :=
  if gatewayOk then some (availabilityRows db item size quantity) else none

/-- `update_stock`: `UPDATE uniform_stock SET quantity = quantity + %s,
last_updated = CURRENT_TIMESTAMP WHERE item = %s AND size = %s`. -/
def update_stock (db : DBState) (item size : String) (quantity_change : Int)
    (now : Nat) : DBState :=
  { db with uniform_stock := db.uniform_stock.map (fun r =>
      if r.item == item && r.size == size then
        { r with quantity := r.quantity + quantity_change, last_updated := now }
      else r) }

/-- The stock form handler of `show_stock_tab`: on a non-blank size it
checks `SELECT id FROM uniform_stock WHERE item = %s AND size = %s`; when
a row exists it runs `UPDATE .. SET quantity = quantity + %s, unit_cost =
%s, supplier = %s, invoice_no = %s, last_updated = CURRENT_TIMESTAMP`,
otherwise it INSERTs a fresh row. -/
def add_stock (db : DBState) (item size : String) (quantity : Int)
    (unit_cost : Rat) (supplier invoice_no : String) (now : Nat) : DBState :=
  if pyStrip size == "" then db
  else if (db.uniform_stock.filter (fun r => r.item == item && r.size == size)).isEmpty then
    { db with uniform_stock := db.uniform_stock ++
        [{ item := item, size := size, quantity := quantity, unit_cost := unit_cost,
           supplier := supplier, invoice_no := invoice_no, last_updated := now }] }
  else
    { db with uniform_stock := db.uniform_stock.map (fun r =>
        if r.item == item && r.size == size then
          { r with quantity := r.quantity + quantity, unit_cost := unit_cost,
                   supplier := supplier, invoice_no := invoice_no, last_updated := now }
        else r) }

/-- The fields read from the sale form of `show_sales_tab`. -/
structure SaleRequest where
  sale_date : String
  student_name : String
  student_class : String
  item : String
  size : String
  quantity : Int
  price : Rat
  payment_mode : String
  reference : String
  generate_receipt : Bool
deriving Repr, DecidableEq

/-- The `uniform_sales` row built by the sale INSERT of `show_sales_tab`. -/
def mkSaleRow (req : SaleRequest) (receipt_id : String) : SaleRow :=
  { date := req.sale_date, student_name := req.student_name,
    student_class := req.student_class, item := req.item, size := req.size,
    quantity := req.quantity, selling_price := req.price,
    payment_mode := req.payment_mode, reference := req.reference,
    receipt_id := receipt_id }

/-- The `receipt_data` dictionary built by `show_sales_tab` and persisted
by `save_receipt`: one line item, `total_amount = float(price * quantity)`,
`customer_name = student_name or "Walk-in Customer"`. -/
def mkReceiptData (req : SaleRequest) (receipt_id issued_by : String) : ReceiptRow :=
  { receipt_id := receipt_id, date := req.sale_date,
    customer_name := if req.student_name == "" then "Walk-in Customer" else req.student_name,
    items := [{ name := req.item, size := req.size, price := req.price,
                quantity := req.quantity }],
    total_amount := req.price * (req.quantity : Rat),
    payment_mode := req.payment_mode, reference := req.reference,
    issued_by := issued_by }

/-- The "Record Sale" submit handler of `show_sales_tab`: client-side
validation (`size.strip() and price > 0 and quantity > 0`), then the
availability check, then the sale INSERT, the stock decrement
(`update_stock(conn, item, size, -quantity)`) and — when the receipt box
is ticked — `save_receipt`. `gatewayOk` models whether the availability
fetch succeeds (`false` makes `execute_query` return `None`). -/
def record_sale (gatewayOk : Bool) (db : DBState) (req : SaleRequest)
    (receipt_id issued_by : String) (now : Nat) : DBState :=
  if !(pyStrip req.size == "") && decide (0 < req.price) && decide (0 < req.quantity) then
    if check_stock_availability
        (availabilityQueryResult gatewayOk db req.item req.size req.quantity) then
      let db1 : DBState :=
        { db with uniform_sales := db.uniform_sales ++ [mkSaleRow req receipt_id] }
      let db2 := update_stock db1 req.item req.size (-req.quantity) now
      if req.generate_receipt then
        { db2 with receipts := db2.receipts ++ [mkReceiptData req receipt_id issued_by] }
      else db2
    else db
  else db

/-- Total stored quantity for a `(item, size)` key (sum over matching
rows; the enhanced stock form keeps at most one row per key). -/
def totalQuantity (db : DBState) (item size : String) : Int :=
  ((stockMatches db item size).map (fun r => r.quantity)).sum

/-- The per-row effect of `update_stock` on a matched row. -/
def bumpRow (c : Int) (now : Nat) (r : StockRow) : StockRow :=
  { r with quantity := r.quantity + c, last_updated := now }

/-- The per-row effect of the stock form's UPDATE branch on a matched
row: quantity accumulates, the metadata columns are overwritten. -/
def restockRow (q : Int) (uc : Rat) (sup inv : String) (now : Nat) (r : StockRow) : StockRow :=
  { r with quantity := r.quantity + q, unit_cost := uc, supplier := sup, invoice_no := inv, last_updated := now }

/-- The row INSERTed by the stock form for a fresh `(item, size)` key. -/
def freshStockRow (item size : String) (q : Int) (uc : Rat) (sup inv : String) (now : Nat) : StockRow :=
  { item := item, size := size, quantity := q, unit_cost := uc, supplier := sup, invoice_no := inv, last_updated := now }

/-! ### Stock operation sequences (for the additive-accumulation claim) -/

/-- One operation applied to a fixed `(item, size)` key: a stock-form
addition, or the `update_stock(conn, item, size, -d)` decrement issued by
a recorded sale. -/
inductive StockOp where
  | add (quantity : Int) (unit_cost : Rat) (supplier invoice_no : String)
  | sell (quantity : Int)
deriving Repr, DecidableEq

def applyStockOp (db : DBState) (item size : String) (now : Nat) : StockOp → DBState
  | .add q uc sup inv => add_stock db item size q uc sup inv now
  | .sell d => update_stock db item size (-d) now

def applyStockOps (db : DBState) (item size : String) (now : Nat) : List StockOp → DBState
  | [] => db
  | op :: rest => applyStockOps (applyStockOp db item size now op) item size now rest

/-- Sum of the added quantities in an operation sequence. -/
def opsAddSum (ops : List StockOp) : Int :=
  (ops.map (fun op => match op with | .add q _ _ _ => q | .sell _ => 0)).sum

/-- Sum of the sale-decrement quantities in an operation sequence. -/
def opsSellSum (ops : List StockOp) : Int :=
  (ops.map (fun op => match op with | .add _ _ _ _ => 0 | .sell d => d)).sum

/-! ### Receipt renderer (`format_currency`, `generate_receipt_html`)

The HTML boilerplate is carried verbatim (with the f-string indentation
collapsed); the interpolated values follow the source exactly.  The
rendering timestamp `datetime.now().strftime('%Y-%m-%d %H:%M:%S')` is
passed in as the string `now_str`. -/

/-- Comma grouping of a reversed digit list: emit three digits, then a
separator, matching Python's `,` format flag. -/
def groupRev : Nat → List Char → List Char
  | _, [] => []
  | 0, c :: cs => ',' :: c :: groupRev 2 cs
  | n + 1, c :: cs => c :: groupRev n cs

/-- Decimal rendering of a natural number with thousands separators. -/
def commaSep (n : Nat) : String :=
  String.mk ((groupRev 3 (toString n).toList.reverse).reverse)

/-- Two-decimal fixed-point rendering with thousands separators, the
shape of Python's `f"{x:,.2f}"`.  The cents value is
`⌊|a| · 100 + 1/2⌋ = (200·|num| + den) / (2·den)`, written in integer
arithmetic so it evaluates.  (Python's float formatting resolves ties to
even on the binary value; ties are rounded up here, which agrees on every
value whose cents part is not exactly half.) -/
def fixed2 (a : Rat) : String :=
  let cents : Nat := (a.num.natAbs * 200 + a.den) / (2 * a.den)
  (if a.num < 0 then "-" else "")
    ++ commaSep (cents / 100) ++ "."
    ++ (if cents % 100 < 10 then "0" else "") ++ toString (cents % 100)

/-- `format_currency`: `f"KES {float(amount):,.2f}"`.  (The source's
`None` guard, returning `"KES 0.00"`, is unreachable from the renderer,
whose call sites always pass a number.) -/
def format_currency (amount : Rat) : String :=
  "KES " ++ fixed2 amount

/-- Header block of the receipt document, up to and including the open
`<tbody>` tag. -/
def receiptHeader (rd : ReceiptRow) : String :=
  "<div style=\"font-family: Arial, sans-serif; max-width: 800px; margin: 0 auto; padding: 20px; border: 1px solid #ddd; border-radius: 5px;\">"
  ++ "<div style=\"text-align: center; margin-bottom: 20px;\">"
  ++ "<h2>SUCCESS ACHIEVERS SCHOOL</h2><p>395 Nkubu, Meru | Tel: 0720340953</p>"
  ++ "<h3 style=\"border-top: 1px solid #ddd; border-bottom: 1px solid #ddd; padding: 10px 0;\">RECEIPT</h3></div>"
  ++ "<div style=\"display: flex; justify-content: space-between; margin-bottom: 20px;\">"
  ++ "<div><p><strong>Receipt #:</strong> " ++ rd.receipt_id
  ++ "</p><p><strong>Date:</strong> " ++ rd.date ++ "</p></div>"
  ++ "<div><p><strong>Student:</strong> "
  ++ (if rd.customer_name == "" then "Walk-in Customer" else rd.customer_name)
  ++ "</p><p><strong>Payment Method:</strong> " ++ rd.payment_mode
  ++ "</p><p><strong>Reference:</strong> "
  ++ (if rd.reference == "" then "N/A" else rd.reference)
  ++ "</p></div></div>"
  ++ "<table style=\"width: 100%; border-collapse: collapse; margin-bottom: 20px;\">"
  ++ "<thead><tr style=\"background-color: #f5f5f5;\">"
  ++ "<th style=\"border: 1px solid #ddd; padding: 8px; text-align: left;\">Item</th>"
  ++ "<th style=\"border: 1px solid #ddd; padding: 8px; text-align: left;\">Size</th>"
  ++ "<th style=\"border: 1px solid #ddd; padding: 8px; text-align: right;\">Price</th>"
  ++ "<th style=\"border: 1px solid #ddd; padding: 8px; text-align: right;\">Qty</th>"
  ++ "<th style=\"border: 1px solid #ddd; padding: 8px; text-align: right;\">Amount</th>"
  ++ "</tr></thead><tbody>"

/-- The cells of a line-item row before the amount cell's value. -/
def receiptRowLead (it : ReceiptItem) : String :=
  "<tr><td style=\"border: 1px solid #ddd; padding: 8px;\">" ++ it.name
  ++ "</td><td style=\"border: 1px solid #ddd; padding: 8px;\">" ++ it.size
  ++ "</td><td style=\"border: 1px solid #ddd; padding: 8px; text-align: right;\">"
  ++ format_currency it.price
  ++ "</td><td style=\"border: 1px solid #ddd; padding: 8px; text-align: right;\">"
  ++ toString it.quantity
  ++ "</td><td style=\"border: 1px solid #ddd; padding: 8px; text-align: right;\">"

/-- One line-item row: the loop body computes
`amount = item['price'] * item['quantity']` and interpolates it through
`format_currency` into the last cell. -/
def receiptRowHtml (it : ReceiptItem) : String :=
  receiptRowLead it ++ format_currency (it.price * (it.quantity : Rat)) ++ "</td></tr>"

/-- Concatenation of the line-item rows, in order. -/
def receiptRowsBlock : List ReceiptItem → String
  | [] => ""
  | it :: rest => receiptRowHtml it ++ receiptRowsBlock rest

/-- Footer fragment before the interpolated total. -/
def footTotalPre : String :=
  "</tbody><tfoot><tr>"
  ++ "<td colspan=\"4\" style=\"border: 1px solid #ddd; padding: 8px; text-align: right;\"><strong>Total:</strong></td>"
  ++ "<td style=\"border: 1px solid #ddd; padding: 8px; text-align: right;\"><strong>"

/-- Footer fragment between the total and the render timestamp. -/
def footIssued (rd : ReceiptRow) : String :=
  "</strong></td></tr></tfoot></table>"
  ++ "<div style=\"margin-top: 30px; text-align: right;\">"
  ++ "<p><strong>Issued By:</strong> " ++ rd.issued_by
  ++ "</p><p style=\"font-size: 0.9em; color: #666;\">"

/-- Footer fragment after the render timestamp. -/
def footTail : String :=
  "</p></div><div style=\"text-align: center; margin-top: 40px; font-size: 0.8em; color: #777;\">"
  ++ "<p>Thank you for your business!</p><p>This is a computer-generated receipt</p></div></div>"

/-- `generate_receipt_html`: the whole document.  The only interpolation
of the footer total cell is `format_currency(receipt_data['total_amount'])`,
and the only occurrence of the render timestamp is in the issued-by block. -/
def generate_receipt_html (rd : ReceiptRow) (now_str : String) : String :=
  receiptHeader rd ++ receiptRowsBlock rd.items
    ++ footTotalPre ++ format_currency rd.total_amount
    ++ footIssued rd ++ now_str ++ footTail

/-- The per-row amounts of a receipt structure, `price × quantity` in
item order, and their sum (the spec's `Σ(price×quantity)`). -/
def receiptItemsSum (rd : ReceiptRow) : Rat :=
  (rd.items.map (fun it => it.price * (it.quantity : Rat))).sum

/-- A receipt-shaped structure whose stored `total_amount` (5) differs
from the sum of its per-row amounts (1 × 1 = 1); nothing in the renderer
or the data model rules such a structure out. -/
def mismatchedReceipt : ReceiptRow :=
  { receipt_id := "REC-0001", date := "2025-01-01", customer_name := "Ann",
    items := [{ name := "Shirt", size := "M", price := 1, quantity := 1 }],
    total_amount := 5, payment_mode := "Cash", reference := "",
    issued_by := "System" }

/-! ### Query gateway (`execute_query` of `enhanced_app.py`)

The environment abstracts everything outside the function's own control
flow: whether a given connection passes `is_connection_active`, whether
the k-th forced `get_db_connection(force_reconnect=True)` yields a
connection, and how the k-th `cursor.execute` (plus commit) turns out.
Connection 0 is the initial argument; the connection produced by the k-th
reconnect is numbered `k + 1`. -/

/-- Outcome of one `cursor.execute` / `conn.commit` attempt. -/
inductive QueryOutcome where
  /-- the statement succeeds; for a fetch these are the rows. -/
  | ok (rows : List Nat)
  /-- `psycopg2.Error` whose text contains "connection already closed". -/
  | connClosedError
  /-- any other `psycopg2.Error`. -/
  | dbError
  /-- any other exception. -/
  | otherError
deriving Repr, DecidableEq

/-- Value returned to the caller of `execute_query`. -/
inductive QueryResult where
  /-- fetch mode success: `cursor.fetchall()`. -/
  | rows (rs : List Nat)
  /-- write mode success: Python `True`. -/
  | tt
  /-- Python `None` (failure in fetch mode). -/
  | nullResult
  /-- Python `False` (failure in write mode). -/
  | ff
deriving Repr, DecidableEq

/-- `return False if not fetch else None`. -/
def failValue (fetch : Bool) : QueryResult :=
  if fetch then .nullResult else .ff

/-- The success return: rows in fetch mode, `True` after commit otherwise. -/
def okValue (fetch : Bool) (rs : List Nat) : QueryResult :=
  if fetch then .rows rs else .tt

structure QueryEnv where
  /-- `is_connection_active` for connection number `i`. -/
  connOk : Nat → Bool
  /-- whether the k-th `get_db_connection(force_reconnect=True)` returns
  a connection (otherwise Python `None`). -/
  reconnOk : Nat → Bool
  /-- outcome of the k-th `cursor.execute` attempt. -/
  execOut : Nat → QueryOutcome

/-- The entry check of `execute_query`: `if not
is_connection_active(conn): conn = get_db_connection(force_reconnect=True)`.
Returns the connection to use together with the updated reconnect count,
or `none` when re-establishing fails (`return False if not fetch else
None`).  The connection produced by the k-th reconnect is numbered
`k + 1`. -/
def gatewayPrecheck (env : QueryEnv) (connId r : Nat) : Option (Nat × Nat) :=
  if env.connOk connId then some (connId, r)
  else if env.reconnOk r then some (r + 1, r + 1)
  else none

/-- The recursive `execute_query` call at `retry_count = 1 = max_retries`:
a further "connection already closed" error is no longer retried
(`retry_count < max_retries` fails) and falls to the plain error return.
`connId` is the connection argument; `e` and `r` count the
`cursor.execute` and reconnect attempts made so far; the result carries
the final counts. -/
def execute_query_retry (env : QueryEnv) (fetch : Bool) (connId e r : Nat) :
    QueryResult × Nat × Nat :=
  match gatewayPrecheck env connId r with
  | none => (failValue fetch, e, r + 1)
  | some (_, r1) =>
    match env.execOut e with
    | .ok rs => (okValue fetch rs, e + 1, r1)
    | .connClosedError => (failValue fetch, e + 1, r1)
    | .dbError => (failValue fetch, e + 1, r1)
    | .otherError => (failValue fetch, e + 1, r1)

/-- Top-level `execute_query` (`retry_count = 0`, initial connection 0):
on a `psycopg2.Error` containing "connection already closed" it forces
one reconnect and re-runs itself at `retry_count = 1`; every other caught
error returns the `None`/`False` failure value. -/
def execute_query (env : QueryEnv) (fetch : Bool) : QueryResult × Nat × Nat :=
  match gatewayPrecheck env 0 0 with
  | none => (failValue fetch, 0, 1)
  | some (_, r1) =>
    match env.execOut 0 with
    | .ok rs => (okValue fetch rs, 1, r1)
    | .connClosedError =>
      if env.reconnOk r1 then execute_query_retry env fetch (r1 + 1) 1 (r1 + 1)
      else (failValue fetch, 1, r1 + 1)
    | .dbError => (failValue fetch, 1, r1)
    | .otherError => (failValue fetch, 1, r1)

/-! ### Concrete example inputs (the spec's worked example) -/

/-- The spec's worked example stock row: Shirt, size M, quantity 10,
unit cost 500. -/
def exShirtRow : StockRow :=
  { item := "Shirt", size := "M", quantity := 10, unit_cost := 500,
    supplier := "", invoice_no := "", last_updated := 0 }

def exDB : DBState :=
  { expenses := [], uniform_stock := [exShirtRow], uniform_sales := [],
    receipts := [] }

def exEmptyDB : DBState :=
  { expenses := [], uniform_stock := [], uniform_sales := [], receipts := [] }

/-- The spec's worked example sale: quantity 3 at selling price 700,
receipt requested. -/
def exSaleReq : SaleRequest :=
  { sale_date := "2025-01-01", student_name := "", student_class := "",
    item := "Shirt", size := "M", quantity := 3, price := 700,
    payment_mode := "Cash", reference := "", generate_receipt := true }

/-- The same sale without receipt generation. -/
def exNoReceiptReq : SaleRequest :=
  { exSaleReq with generate_receipt := false }

/-- An oversized sale request (quantity 11 against stock 10). -/
def exBigReq : SaleRequest :=
  { exSaleReq with quantity := 11 }

/-- A receipt whose stored total equals the sum of its line items. -/
def exReceipt : ReceiptRow :=
  { receipt_id := "REC-1", date := "2025-01-01", customer_name := "Ann",
    items := [{ name := "Shirt", size := "M", price := 700, quantity := 3 }],
    total_amount := 2100, payment_mode := "Cash", reference := "",
    issued_by := "System" }

/-- A gateway environment: connections test active, reconnects succeed,
the first execution hits "connection already closed" and the retry hits
a different database error. -/
def exQueryEnv : QueryEnv :=
  { connOk := fun _ => true, reconnOk := fun _ => true,
    execOut := fun k => if k = 0 then .connClosedError else .dbError }

/-! ## Helper lemmas -/

/-- Filtering after a keyed row update: rows are rewritten in place, and
an update that preserves the key leaves the filtered sublist aligned. -/
theorem filter_map_keyInv (p : StockRow → Bool) (g : StockRow → StockRow)
    (hg : ∀ r, p (g r) = p r) (l : List StockRow) :
    (l.map (fun r => if p r then g r else r)).filter p = (l.filter p).map g := by
  induction l with
  | nil => rfl
  | cons a t ih =>
    cases hpa : p a with
    | true => simp [List.filter_cons, hpa, hg, ih]
    | false => simp [List.filter_cons, hpa, ih]

theorem stockMatches_update_stock (db : DBState) (item size : String)
    (c : Int) (now : Nat) :
    stockMatches (update_stock db item size c now) item size =
      (stockMatches db item size).map (bumpRow c now) := by
  unfold stockMatches update_stock
  exact filter_map_keyInv (fun r => r.item == item && r.size == size)
    (bumpRow c now) (fun r => rfl) db.uniform_stock

theorem stockMatches_add_stock_existing (db : DBState) (item size : String)
    (q : Int) (uc : Rat) (sup inv : String) (now : Nat)
    (hsize : ¬ pyStrip size = "")
    (hne : stockMatches db item size ≠ []) :
    stockMatches (add_stock db item size q uc sup inv now) item size =
      (stockMatches db item size).map (restockRow q uc sup inv now) := by
  unfold add_stock
  rw [if_neg (by simpa using hsize),
      if_neg (by simp only [List.isEmpty_iff]; exact hne)]
  exact filter_map_keyInv (fun r => r.item == item && r.size == size)
    (restockRow q uc sup inv now) (fun r => rfl) db.uniform_stock

theorem stockMatches_add_stock_new (db : DBState) (item size : String)
    (q : Int) (uc : Rat) (sup inv : String) (now : Nat)
    (hsize : ¬ pyStrip size = "")
    (hempty : stockMatches db item size = []) :
    stockMatches (add_stock db item size q uc sup inv now) item size =
      [freshStockRow item size q uc sup inv now] := by
  unfold add_stock
  rw [if_neg (by simpa using hsize),
      if_pos (by simp only [List.isEmpty_iff]; exact hempty)]
  unfold stockMatches at hempty ⊢
  simp [List.filter_append, hempty, freshStockRow]

/-- The availability fetch is non-empty exactly when a matching row with
enough quantity exists. -/
theorem availability_true_iff (db : DBState) (item size : String) (q : Int) :
    check_stock_availability (some (availabilityRows db item size q)) = true ↔
      ∃ r ∈ db.uniform_stock, r.item = item ∧ r.size = size ∧ q ≤ r.quantity := by
  unfold check_stock_availability availabilityRows
  simp [List.isEmpty_iff, List.filter_eq_nil_iff]

theorem stockMatches_eq_of_stock_eq {db1 db2 : DBState}
    (h : db1.uniform_stock = db2.uniform_stock) (item size : String) :
    stockMatches db1 item size = stockMatches db2 item size := by
  unfold stockMatches
  rw [h]

/-- Component-wise effect of the sale handler's success path (validation
passed, availability check true). -/
theorem record_sale_components (db : DBState) (req : SaleRequest)
    (rid issuer : String) (now : Nat)
    (hval : (!(pyStrip req.size == "") && decide (0 < req.price) && decide (0 < req.quantity)) = true)
    (hcheck : check_stock_availability
        (availabilityQueryResult true db req.item req.size req.quantity) = true) :
    (record_sale true db req rid issuer now).expenses = db.expenses
    ∧ (record_sale true db req rid issuer now).uniform_stock
        = (update_stock db req.item req.size (-req.quantity) now).uniform_stock
    ∧ (record_sale true db req rid issuer now).uniform_sales
        = db.uniform_sales ++ [mkSaleRow req rid]
    ∧ (record_sale true db req rid issuer now).receipts
        = (if req.generate_receipt then db.receipts ++ [mkReceiptData req rid issuer]
           else db.receipts) := by
  unfold record_sale
  rw [if_pos hval, if_pos hcheck]
  cases hgen : req.generate_receipt with
  | false => simp [hgen, update_stock]
  | true => simp [hgen, update_stock]

/-! ## Claim theorems -/

/-- C4: `check_stock_availability(item, size, quantity)` returns true iff
a `uniform_stock` row for `(item, size)` with quantity ≥ the requested
amount exists; when no row exists for the key it returns false. -/
theorem claim_C4_check_availability (db : DBState) (item size : String) (q : Int) :
    (check_stock_availability (availabilityQueryResult true db item size q) = true
      ↔ ∃ r ∈ db.uniform_stock, r.item = item ∧ r.size = size ∧ q ≤ r.quantity)
    ∧ ((∀ r ∈ db.uniform_stock, ¬(r.item = item ∧ r.size = size)) →
        check_stock_availability (availabilityQueryResult true db item size q) = false) := by
  have hres : availabilityQueryResult true db item size q
      = some (availabilityRows db item size q) := rfl
  rw [hres]
  refine ⟨availability_true_iff db item size q, ?_⟩
  intro hnone
  cases hb : check_stock_availability (some (availabilityRows db item size q)) with
  | false => rfl
  | true =>
    obtain ⟨r, hr, h1, h2, _⟩ := (availability_true_iff db item size q).mp hb
    exact absurd ⟨h1, h2⟩ (hnone r hr)

/-- C2: when every stock row for the requested key has quantity below the
requested amount (in particular when no row exists), the sale handler
performs no mutation at all: the whole database state is unchanged. -/
theorem claim_C2_insufficient_stock_no_mutation (gatewayOk : Bool) (db : DBState)
    (req : SaleRequest) (rid issuer : String) (now : Nat)
    (h : ∀ r ∈ db.uniform_stock,
        r.item = req.item → r.size = req.size → r.quantity < req.quantity) :
    record_sale gatewayOk db req rid issuer now = db := by
  unfold record_sale
  split
  · have hcheck : check_stock_availability
        (availabilityQueryResult gatewayOk db req.item req.size req.quantity) = false := by
      cases gatewayOk with
      | false => rfl
      | true =>
        cases hb : check_stock_availability
            (some (availabilityRows db req.item req.size req.quantity)) with
        | false => exact hb
        | true =>
          obtain ⟨r, hr, h1, h2, hge⟩ :=
            (availability_true_iff db req.item req.size req.quantity).mp hb
          exact absurd hge (not_le.mpr (h r hr h1 h2))
    rw [if_neg (by simp [hcheck])]
  · rfl

/-- C10: a failed availability fetch (the gateway's `None` result) makes
`check_stock_availability` return false instead of raising, so the sale
flow treats it as insufficient stock and the state — in particular the
`uniform_sales` table — is untouched. -/
theorem claim_C10_gateway_failure_blocks_sale (db : DBState) (req : SaleRequest)
    (rid issuer : String) (now : Nat) :
    check_stock_availability none = false
    ∧ record_sale false db req rid issuer now = db
    ∧ (record_sale false db req rid issuer now).uniform_sales = db.uniform_sales := by
  have hmain : record_sale false db req rid issuer now = db := by
    unfold record_sale
    split
    · rw [if_neg (by simp [availabilityQueryResult, check_stock_availability])]
    · rfl
  exact ⟨rfl, hmain, by rw [hmain]⟩

/-- C1: with a valid request (qty > 0, price > 0, non-blank size) and a
single stock row for the key holding at least the requested quantity,
recording the sale leaves that row's stored quantity decreased by exactly
`qty`, appends exactly one `uniform_sales` row, and — when the receipt box
is ticked — appends exactly one `receipts` row whose `total_amount` is
`price × qty`. -/
theorem claim_C1_record_sale_success (db : DBState) (req : SaleRequest)
    (rid issuer : String) (now : Nat) (r : StockRow)
    (hs : ¬ pyStrip req.size = "") (hp : 0 < req.price) (hq : 0 < req.quantity)
    (hrow : stockMatches db req.item req.size = [r])
    (havail : req.quantity ≤ r.quantity) :
    (stockMatches (record_sale true db req rid issuer now) req.item req.size).map
        (fun s => s.quantity) = [r.quantity - req.quantity]
    ∧ (record_sale true db req rid issuer now).uniform_sales
        = db.uniform_sales ++ [mkSaleRow req rid]
    ∧ (req.generate_receipt = true →
        (record_sale true db req rid issuer now).receipts
          = db.receipts ++ [mkReceiptData req rid issuer]
        ∧ (mkReceiptData req rid issuer).total_amount = req.price * (req.quantity : Rat)) := by
  have hrmem : r ∈ db.uniform_stock.filter
      (fun s => s.item == req.item && s.size == req.size) := by
    have : r ∈ stockMatches db req.item req.size := by
      rw [hrow]; exact List.mem_singleton.mpr rfl
    exact this
  have hmf := List.mem_filter.mp hrmem
  have hkey : r.item = req.item ∧ r.size = req.size := by
    simpa [Bool.and_eq_true, beq_iff_eq] using hmf.2
  have hcheck : check_stock_availability
      (availabilityQueryResult true db req.item req.size req.quantity) = true :=
    (availability_true_iff db req.item req.size req.quantity).mpr
      ⟨r, hmf.1, hkey.1, hkey.2, havail⟩
  have hval : (!(pyStrip req.size == "") && decide (0 < req.price)
      && decide (0 < req.quantity)) = true := by
    simp [hs, hp, hq]
  obtain ⟨hexp, hstock, hsales, hrec⟩ := record_sale_components db req rid issuer now hval hcheck
  refine ⟨?_, hsales, ?_⟩
  · rw [stockMatches_eq_of_stock_eq hstock, stockMatches_update_stock, hrow]
    simp [bumpRow, sub_eq_add_neg]
  · intro hgen
    rw [hrec, if_pos hgen]
    exact ⟨rfl, rfl⟩

/-- C8: every receipt persisted by the sale flow carries exactly the one
sold line item, `total_amount = price × quantity` and the same
`receipt_id` that is written to the sale row; the `receipt_id` is written
to the sale row even when no receipt is requested, in which case no
`receipts` row with that id exists (given the generated id is fresh). -/
theorem claim_C8_receipt_sale_link (db : DBState) (req : SaleRequest)
    (rid issuer : String) (now : Nat) (r : StockRow)
    (hs : ¬ pyStrip req.size = "") (hp : 0 < req.price) (hq : 0 < req.quantity)
    (hrow : stockMatches db req.item req.size = [r])
    (havail : req.quantity ≤ r.quantity) :
    ((mkReceiptData req rid issuer).items
        = [{ name := req.item, size := req.size, price := req.price, quantity := req.quantity }]
      ∧ (mkReceiptData req rid issuer).total_amount = req.price * (req.quantity : Rat)
      ∧ (mkReceiptData req rid issuer).receipt_id = rid
      ∧ (mkSaleRow req rid).receipt_id = rid
      ∧ (record_sale true db req rid issuer now).uniform_sales
          = db.uniform_sales ++ [mkSaleRow req rid])
    ∧ (req.generate_receipt = true →
        (record_sale true db req rid issuer now).receipts
          = db.receipts ++ [mkReceiptData req rid issuer])
    ∧ (req.generate_receipt = false →
        (record_sale true db req rid issuer now).receipts = db.receipts
        ∧ ((∀ rr ∈ db.receipts, rr.receipt_id ≠ rid) →
            ∀ rr ∈ (record_sale true db req rid issuer now).receipts, rr.receipt_id ≠ rid)) := by
  have hrmem : r ∈ db.uniform_stock.filter
      (fun s => s.item == req.item && s.size == req.size) := by
    have : r ∈ stockMatches db req.item req.size := by
      rw [hrow]; exact List.mem_singleton.mpr rfl
    exact this
  have hmf := List.mem_filter.mp hrmem
  have hkey : r.item = req.item ∧ r.size = req.size := by
    simpa [Bool.and_eq_true, beq_iff_eq] using hmf.2
  have hcheck : check_stock_availability
      (availabilityQueryResult true db req.item req.size req.quantity) = true :=
    (availability_true_iff db req.item req.size req.quantity).mpr
      ⟨r, hmf.1, hkey.1, hkey.2, havail⟩
  have hval : (!(pyStrip req.size == "") && decide (0 < req.price)
      && decide (0 < req.quantity)) = true := by
    simp [hs, hp, hq]
  obtain ⟨hexp, hstock, hsales, hrec⟩ := record_sale_components db req rid issuer now hval hcheck
  refine ⟨⟨rfl, rfl, rfl, rfl, hsales⟩, ?_, ?_⟩
  · intro hgen
    rw [hrec, if_pos hgen]
  · intro hgen
    have hsame : (record_sale true db req rid issuer now).receipts = db.receipts := by
      rw [hrec, if_neg (by simp [hgen])]
    refine ⟨hsame, ?_⟩
    intro hfresh rr hrr
    rw [hsame] at hrr
    exact hfresh rr hrr

/-- C9: the sale-driven stock UPDATE touches only `quantity` and
`last_updated` of rows matching `(item, size)`: their other columns, every
row with a different key, and the `expenses`, `uniform_sales` and
`receipts` tables are unchanged. -/
theorem claim_C9_update_stock_frame (db : DBState) (item size : String)
    (c : Int) (now : Nat) :
    (update_stock db item size c now).expenses = db.expenses
    ∧ (update_stock db item size c now).uniform_sales = db.uniform_sales
    ∧ (update_stock db item size c now).receipts = db.receipts
    ∧ (update_stock db item size c now).uniform_stock.length = db.uniform_stock.length
    ∧ (∀ (i : Nat) (r r' : StockRow), db.uniform_stock[i]? = some r →
        (update_stock db item size c now).uniform_stock[i]? = some r' →
        (r'.item = r.item ∧ r'.size = r.size ∧ r'.unit_cost = r.unit_cost
          ∧ r'.supplier = r.supplier ∧ r'.invoice_no = r.invoice_no)
        ∧ (r.item = item ∧ r.size = size →
            r'.quantity = r.quantity + c ∧ r'.last_updated = now)
        ∧ (¬(r.item = item ∧ r.size = size) → r' = r)) := by
  refine ⟨rfl, rfl, rfl, by simp [update_stock], ?_⟩
  intro i r r' hr hr'
  have hmap : (update_stock db item size c now).uniform_stock
      = db.uniform_stock.map
          (fun s => if s.item == item && s.size == size then bumpRow c now s else s) := rfl
  rw [hmap, List.getElem?_map, hr] at hr'
  have hr'' : (if (r.item == item && r.size == size) = true
      then bumpRow c now r else r) = r' := by simpa using hr'
  by_cases hk : (r.item == item && r.size == size) = true
  · rw [if_pos hk] at hr''
    subst hr''
    have hkey : r.item = item ∧ r.size = size := by
      simpa [Bool.and_eq_true, beq_iff_eq] using hk
    exact ⟨⟨rfl, rfl, rfl, rfl, rfl⟩, fun _ => ⟨rfl, rfl⟩, fun hko => absurd hkey hko⟩
  · rw [if_neg hk] at hr''
    subst hr''
    refine ⟨⟨rfl, rfl, rfl, rfl, rfl⟩, ?_, fun _ => rfl⟩
    intro hkey
    exact absurd (by simp [Bool.and_eq_true, beq_iff_eq, hkey.1, hkey.2]) hk

/-- Induction workhorse for C3: once the key has exactly one stock row,
any sequence of stock additions and sale decrements keeps exactly one row,
whose quantity moves by the net of the sequence. -/
theorem applyStockOps_single_row (item size : String) (now : Nat)
    (hsize : ¬ pyStrip size = "") :
    ∀ (ops : List StockOp) (db : DBState) (r : StockRow),
      stockMatches db item size = [r] →
      ∃ r' : StockRow,
        stockMatches (applyStockOps db item size now ops) item size = [r']
        ∧ r'.quantity = r.quantity + (opsAddSum ops - opsSellSum ops) := by
  intro ops
  induction ops with
  | nil =>
    intro db r h
    exact ⟨r, h, by simp [opsAddSum, opsSellSum]⟩
  | cons op rest ih =>
    intro db r h
    cases op with
    | add q uc sup inv =>
      have hne : stockMatches db item size ≠ [] := by rw [h]; simp
      have hstep := stockMatches_add_stock_existing db item size q uc sup inv now hsize hne
      rw [h] at hstep
      obtain ⟨r', hr', hq'⟩ := ih (add_stock db item size q uc sup inv now)
        (restockRow q uc sup inv now r) (by simpa using hstep)
      refine ⟨r', by simpa [applyStockOps, applyStockOp] using hr', ?_⟩
      rw [hq']
      simp only [restockRow, opsAddSum, opsSellSum, List.map_cons, List.sum_cons]
      ring
    | sell d =>
      have hstep := stockMatches_update_stock db item size (-d) now
      rw [h] at hstep
      obtain ⟨r', hr', hq'⟩ := ih (update_stock db item size (-d) now)
        (bumpRow (-d) now r) (by simpa using hstep)
      refine ⟨r', by simpa [applyStockOps, applyStockOp] using hr', ?_⟩
      rw [hq']
      simp only [bumpRow, opsAddSum, opsSellSum, List.map_cons, List.sum_cons]
      ring

/-- C3: starting from a state with no row for the key, a sequence of
stock additions `q1..qn` and recorded-sale decrements `d1..dm` (opened by
an addition, as a recorded sale presupposes prior stock) leaves the stored
total for the key equal to `Σqi − Σdj`; and an addition on an existing
key accumulates into the stored quantity instead of replacing it. -/
theorem claim_C3_stock_sequences_additive (db : DBState) (item size : String)
    (now : Nat) (hsize : ¬ pyStrip size = "")
    (hempty : stockMatches db item size = [])
    (q : Int) (uc : Rat) (sup inv : String) (rest : List StockOp) :
    (totalQuantity (applyStockOps db item size now (StockOp.add q uc sup inv :: rest)) item size
      = opsAddSum (StockOp.add q uc sup inv :: rest)
        - opsSellSum (StockOp.add q uc sup inv :: rest))
    ∧ (∀ (db2 : DBState) (r : StockRow) (q2 : Int) (uc2 : Rat) (sup2 inv2 : String),
        stockMatches db2 item size = [r] →
        totalQuantity (add_stock db2 item size q2 uc2 sup2 inv2 now) item size
          = r.quantity + q2) := by
  constructor
  · have hfirst := stockMatches_add_stock_new db item size q uc sup inv now hsize hempty
    obtain ⟨r', hr', hq'⟩ := applyStockOps_single_row item size now hsize rest
      (add_stock db item size q uc sup inv now)
      (freshStockRow item size q uc sup inv now) hfirst
    have hshape : applyStockOps db item size now (StockOp.add q uc sup inv :: rest)
        = applyStockOps (add_stock db item size q uc sup inv now) item size now rest := rfl
    unfold totalQuantity
    rw [hshape, hr']
    simp only [List.map_cons, List.map_nil, List.sum_cons, List.sum_nil, add_zero]
    rw [hq']
    simp only [freshStockRow, opsAddSum, opsSellSum, List.map_cons, List.sum_cons]
    ring
  · intro db2 r q2 uc2 sup2 inv2 hr
    have hne : stockMatches db2 item size ≠ [] := by rw [hr]; simp
    have hstep := stockMatches_add_stock_existing db2 item size q2 uc2 sup2 inv2 now hsize hne
    rw [hr] at hstep
    unfold totalQuantity
    rw [hstep]
    simp [restockRow]

/-- The retried call never raises: its value is the failure value or a
success value, it executes the statement at most once more, and any
non-success outcome of that execution yields the failure value. -/
theorem execute_query_retry_spec (env : QueryEnv) (fetch : Bool) (connId e r : Nat) :
    ((execute_query_retry env fetch connId e r).1 = failValue fetch
      ∨ ∃ rs, (execute_query_retry env fetch connId e r).1 = okValue fetch rs)
    ∧ (execute_query_retry env fetch connId e r).2.1 ≤ e + 1 := by
  unfold execute_query_retry gatewayPrecheck
  by_cases h0 : env.connOk connId = true <;>
    by_cases h1 : env.reconnOk r = true <;>
    cases hout : env.execOut e <;>
    simp [h0, h1, hout]

/-- On an active connection, the retried call executes the statement
exactly once more, performs no further reconnect, and degrades every
non-success outcome to the failure value. -/
theorem execute_query_retry_active (env : QueryEnv) (fetch : Bool) (connId e r : Nat)
    (h : env.connOk connId = true) :
    (execute_query_retry env fetch connId e r).2.1 = e + 1
    ∧ (execute_query_retry env fetch connId e r).2.2 = r
    ∧ ((∀ rs, env.execOut e ≠ QueryOutcome.ok rs) →
        (execute_query_retry env fetch connId e r).1 = failValue fetch) := by
  cases hout : env.execOut e with
  | ok rs =>
    refine ⟨by simp [execute_query_retry, gatewayPrecheck, h, hout],
      by simp [execute_query_retry, gatewayPrecheck, h, hout], ?_⟩
    intro hno
    exact absurd rfl (hno rs)
  | connClosedError =>
    exact ⟨by simp [execute_query_retry, gatewayPrecheck, h, hout],
      by simp [execute_query_retry, gatewayPrecheck, h, hout],
      fun _ => by simp [execute_query_retry, gatewayPrecheck, h, hout]⟩
  | dbError =>
    exact ⟨by simp [execute_query_retry, gatewayPrecheck, h, hout],
      by simp [execute_query_retry, gatewayPrecheck, h, hout],
      fun _ => by simp [execute_query_retry, gatewayPrecheck, h, hout]⟩
  | otherError =>
    exact ⟨by simp [execute_query_retry, gatewayPrecheck, h, hout],
      by simp [execute_query_retry, gatewayPrecheck, h, hout],
      fun _ => by simp [execute_query_retry, gatewayPrecheck, h, hout]⟩

/-- `execute_query` returns a plain value and runs the statement at most
twice, whatever the environment does. -/
theorem execute_query_spec (env : QueryEnv) (fetch : Bool) :
    ((execute_query env fetch).1 = failValue fetch
      ∨ ∃ rs, (execute_query env fetch).1 = okValue fetch rs)
    ∧ (execute_query env fetch).2.1 ≤ 2 := by
  by_cases h0 : env.connOk 0 = true
  · cases hout : env.execOut 0 with
    | ok rs =>
      have heq : execute_query env fetch = (okValue fetch rs, 1, 0) := by
        simp [execute_query, gatewayPrecheck, h0, hout]
      rw [heq]
      exact ⟨Or.inr ⟨rs, rfl⟩, by norm_num⟩
    | connClosedError =>
      by_cases h1 : env.reconnOk 0 = true
      · have heq : execute_query env fetch = execute_query_retry env fetch 1 1 1 := by
          simp [execute_query, gatewayPrecheck, h0, h1, hout]
        rw [heq]
        exact ⟨(execute_query_retry_spec env fetch 1 1 1).1,
          (execute_query_retry_spec env fetch 1 1 1).2⟩
      · have heq : execute_query env fetch = (failValue fetch, 1, 1) := by
          simp [execute_query, gatewayPrecheck, h0, h1, hout]
        rw [heq]
        exact ⟨Or.inl rfl, by norm_num⟩
    | dbError =>
      have heq : execute_query env fetch = (failValue fetch, 1, 0) := by
        simp [execute_query, gatewayPrecheck, h0, hout]
      rw [heq]
      exact ⟨Or.inl rfl, by norm_num⟩
    | otherError =>
      have heq : execute_query env fetch = (failValue fetch, 1, 0) := by
        simp [execute_query, gatewayPrecheck, h0, hout]
      rw [heq]
      exact ⟨Or.inl rfl, by norm_num⟩
  · by_cases h1 : env.reconnOk 0 = true
    · cases hout : env.execOut 0 with
      | ok rs =>
        have heq : execute_query env fetch = (okValue fetch rs, 1, 1) := by
          simp [execute_query, gatewayPrecheck, h0, h1, hout]
        rw [heq]
        exact ⟨Or.inr ⟨rs, rfl⟩, by norm_num⟩
      | connClosedError =>
        by_cases h2 : env.reconnOk 1 = true
        · have heq : execute_query env fetch = execute_query_retry env fetch 2 1 2 := by
            simp [execute_query, gatewayPrecheck, h0, h1, h2, hout]
          rw [heq]
          exact ⟨(execute_query_retry_spec env fetch 2 1 2).1,
            (execute_query_retry_spec env fetch 2 1 2).2⟩
        · have heq : execute_query env fetch = (failValue fetch, 1, 2) := by
            simp [execute_query, gatewayPrecheck, h0, h1, h2, hout]
          rw [heq]
          exact ⟨Or.inl rfl, by norm_num⟩
      | dbError =>
        have heq : execute_query env fetch = (failValue fetch, 1, 1) := by
          simp [execute_query, gatewayPrecheck, h0, h1, hout]
        rw [heq]
        exact ⟨Or.inl rfl, by norm_num⟩
      | otherError =>
        have heq : execute_query env fetch = (failValue fetch, 1, 1) := by
          simp [execute_query, gatewayPrecheck, h0, h1, hout]
        rw [heq]
        exact ⟨Or.inl rfl, by norm_num⟩
    · have heq : execute_query env fetch = (failValue fetch, 0, 1) := by
        simp [execute_query, gatewayPrecheck, h0, h1]
      rw [heq]
      exact ⟨Or.inl rfl, by norm_num⟩

/-- C7: `execute_query` always hands back a plain value (the fetch/write
success value, or `None`/`False` according to the mode) — never an
exception; it executes the statement at most twice; and on a broken
connection detected during execution (with the reconnect succeeding and
the fresh connection active) it reconnects exactly once and retries the
statement exactly once, degrading a second failure of any kind to the
`None`/`False` failure value. -/
theorem claim_C7_gateway_retry_once_no_exception (env : QueryEnv) (fetch : Bool) :
    ((execute_query env fetch).1 = failValue fetch
      ∨ ∃ rs, (execute_query env fetch).1 = okValue fetch rs)
    ∧ (execute_query env fetch).2.1 ≤ 2
    ∧ (env.connOk 0 = true → env.execOut 0 = QueryOutcome.connClosedError →
        env.reconnOk 0 = true → env.connOk 1 = true →
        (execute_query env fetch).2.1 = 2
        ∧ (execute_query env fetch).2.2 = 1
        ∧ ((∀ rs, env.execOut 1 ≠ QueryOutcome.ok rs) →
            (execute_query env fetch).1 = failValue fetch)) := by
  refine ⟨(execute_query_spec env fetch).1, (execute_query_spec env fetch).2, ?_⟩
  intro hA hB hC hD
  have heq : execute_query env fetch = execute_query_retry env fetch 1 1 1 := by
    simp [execute_query, gatewayPrecheck, hA, hB, hC]
  rw [heq]
  exact execute_query_retry_active env fetch 1 1 1 hD

/-- Each line item contributes its own row somewhere in the rows block. -/
theorem receiptRowsBlock_mem (it : ReceiptItem) :
    ∀ l : List ReceiptItem, it ∈ l →
      ∃ p q : String, receiptRowsBlock l = p ++ receiptRowHtml it ++ q := by
  intro l
  induction l with
  | nil => intro h; cases h
  | cons a t ih =>
    intro h
    rcases List.mem_cons.mp h with heq | hmem
    · subst heq
      exact ⟨"", receiptRowsBlock t, by simp [receiptRowsBlock, String.append_assoc]⟩
    · obtain ⟨p, q, hpq⟩ := ih hmem
      refine ⟨receiptRowHtml a ++ p, q, ?_⟩
      simp [receiptRowsBlock, hpq, String.append_assoc]

/-- C6: the rendered document decomposes as a fixed prefix and suffix
around the render timestamp, both depending only on the receipt
structure; hence two renderings at the same timestamp are byte-identical
and two renderings can differ only in the embedded timestamp. -/
theorem claim_C6_render_deterministic_modulo_timestamp (rd : ReceiptRow) :
    (∃ p q : String, ∀ ts : String, generate_receipt_html rd ts = p ++ ts ++ q)
    ∧ (∀ ts1 ts2 : String, ts1 = ts2 →
        generate_receipt_html rd ts1 = generate_receipt_html rd ts2) := by
  constructor
  · refine ⟨receiptHeader rd ++ receiptRowsBlock rd.items ++ footTotalPre
      ++ format_currency rd.total_amount ++ footIssued rd, footTail, ?_⟩
    intro ts
    simp [generate_receipt_html, String.append_assoc]
  · intro ts1 ts2 h
    rw [h]

/-- C5 (amended): each rendered line-item row carries the computed amount
`price × quantity`; the footer total cell renders the structure's stored
`total_amount` (not a recomputed sum), so it equals the sum of the
per-row amounts exactly when the stored `total_amount` does — as is the
case for every receipt built by the sale flow. -/
theorem claim_C5_receipt_rendering (rd : ReceiptRow) (ts : String) :
    (∀ it ∈ rd.items, ∃ p q : String,
        generate_receipt_html rd ts
          = p ++ format_currency (it.price * (it.quantity : Rat)) ++ q)
    ∧ generate_receipt_html rd ts
        = (receiptHeader rd ++ receiptRowsBlock rd.items ++ footTotalPre)
          ++ format_currency rd.total_amount
          ++ (footIssued rd ++ ts ++ footTail)
    ∧ (rd.total_amount = receiptItemsSum rd →
        generate_receipt_html rd ts
          = (receiptHeader rd ++ receiptRowsBlock rd.items ++ footTotalPre)
            ++ format_currency (receiptItemsSum rd)
            ++ (footIssued rd ++ ts ++ footTail))
    ∧ (∀ (req : SaleRequest) (rid issuer : String),
        (mkReceiptData req rid issuer).total_amount
          = receiptItemsSum (mkReceiptData req rid issuer)) := by
  have hfoot : generate_receipt_html rd ts
      = (receiptHeader rd ++ receiptRowsBlock rd.items ++ footTotalPre)
        ++ format_currency rd.total_amount
        ++ (footIssued rd ++ ts ++ footTail) := by
    simp [generate_receipt_html, String.append_assoc]
  refine ⟨?_, hfoot, ?_, ?_⟩
  · intro it hit
    obtain ⟨p, q, hpq⟩ := receiptRowsBlock_mem it rd.items hit
    refine ⟨receiptHeader rd ++ p ++ receiptRowLead it,
      "</td></tr>" ++ q ++ footTotalPre ++ format_currency rd.total_amount
        ++ footIssued rd ++ ts ++ footTail, ?_⟩
    simp [generate_receipt_html, hpq, receiptRowHtml, String.append_assoc]
  · intro h
    rw [← h]
    exact hfoot
  · intro req rid issuer
    simp [mkReceiptData, receiptItemsSum]

/-- C5 counterexample: for the receipt structure `mismatchedReceipt` the
footer cell of the rendered document shows the stored `total_amount`
("KES 5.00"), which is not the rendering of the sum of the per-row
amounts ("KES 1.00"): the claim that the footer total equals
`Σ(price × quantity)` and matches `total_amount` fails on it. -/
theorem claim_C5_footer_counterexample :
    generate_receipt_html mismatchedReceipt "2025-01-01 12:00:00"
      = (receiptHeader mismatchedReceipt ++ receiptRowsBlock mismatchedReceipt.items
          ++ footTotalPre)
        ++ format_currency mismatchedReceipt.total_amount
        ++ (footIssued mismatchedReceipt ++ "2025-01-01 12:00:00" ++ footTail)
    ∧ format_currency mismatchedReceipt.total_amount
        ≠ format_currency (receiptItemsSum mismatchedReceipt)
    ∧ mismatchedReceipt.total_amount ≠ receiptItemsSum mismatchedReceipt := by
  have hsum : receiptItemsSum mismatchedReceipt = 1 := by
    simp [receiptItemsSum, mismatchedReceipt]
  have htot : mismatchedReceipt.total_amount = (5 : Rat) := rfl
  refine ⟨by simp [generate_receipt_html, String.append_assoc], ?_, ?_⟩
  · rw [hsum, htot]
    decide
  · rw [hsum, htot]
    norm_num

/-! ## Witnesses -/

/-- Witness for C1 at the spec's worked example: stock 10 → 7, one sale
row, one receipt with total 2100. -/
theorem claim_C1_witness :
    (stockMatches (record_sale true exDB exSaleReq "REC-1" "System" 1)
        exSaleReq.item exSaleReq.size).map (fun s => s.quantity) = [7]
    ∧ (record_sale true exDB exSaleReq "REC-1" "System" 1).uniform_sales
        = [mkSaleRow exSaleReq "REC-1"]
    ∧ (record_sale true exDB exSaleReq "REC-1" "System" 1).receipts
        = exDB.receipts ++ [mkReceiptData exSaleReq "REC-1" "System"]
    ∧ (mkReceiptData exSaleReq "REC-1" "System").total_amount = 2100 := by
  have h := claim_C1_record_sale_success exDB exSaleReq "REC-1" "System" 1 exShirtRow
    (by decide) (by decide) (by decide) (by decide) (by decide)
  obtain ⟨h1, h2, h3⟩ := h
  have hg := h3 rfl
  refine ⟨by rw [h1]; decide, by simpa [exDB] using h2, hg.1, ?_⟩
  rw [hg.2]
  norm_num [exSaleReq]

/-- Witness for C2: an oversized request leaves the state unchanged. -/
theorem claim_C2_witness :
    record_sale true exDB exBigReq "REC-2" "System" 1 = exDB :=
  claim_C2_insufficient_stock_no_mutation true exDB exBigReq "REC-2" "System" 1
    (by decide)

/-- Witness for C3: additions 10 and 5 with sale decrements 3 and 4 leave
total 8; an addition of 5 onto the existing row of 10 yields 15. -/
theorem claim_C3_witness :
    totalQuantity (applyStockOps exEmptyDB "Shirt" "M" 1
        (StockOp.add 10 500 "Sup" "Inv"
          :: [StockOp.sell 3, StockOp.add 5 450 "Sup" "Inv", StockOp.sell 4]))
      "Shirt" "M" = 8
    ∧ totalQuantity (add_stock exDB "Shirt" "M" 5 450 "Sup" "Inv" 1) "Shirt" "M" = 15 := by
  have h := claim_C3_stock_sequences_additive exEmptyDB "Shirt" "M" 1
    (by decide) (by decide) 10 500 "Sup" "Inv"
    [StockOp.sell 3, StockOp.add 5 450 "Sup" "Inv", StockOp.sell 4]
  constructor
  · rw [h.1]; decide
  · rw [h.2 exDB exShirtRow 5 450 "Sup" "Inv" (by decide)]; decide

/-- Witness for C4: the availability check is true for (Shirt, M, 3)
against stock 10 and false for the absent key (Shirt, XL). -/
theorem claim_C4_witness :
    check_stock_availability (availabilityQueryResult true exDB "Shirt" "M" 3) = true
    ∧ check_stock_availability (availabilityQueryResult true exDB "Shirt" "XL" 3) = false := by
  constructor
  · exact (claim_C4_check_availability exDB "Shirt" "M" 3).1.mpr
      ⟨exShirtRow, by decide, by decide, by decide, by decide⟩
  · exact (claim_C4_check_availability exDB "Shirt" "XL" 3).2 (by decide)

/-- Witness for C5 at a well-formed receipt: the row amount 700 × 3
appears in the document and the footer renders the sum. -/
theorem claim_C5_witness :
    (∃ p q : String, generate_receipt_html exReceipt "2025-01-01 12:00:00"
        = p ++ format_currency ((700 : Rat) * ((3 : Int) : Rat)) ++ q)
    ∧ generate_receipt_html exReceipt "2025-01-01 12:00:00"
        = (receiptHeader exReceipt ++ receiptRowsBlock exReceipt.items ++ footTotalPre)
          ++ format_currency (receiptItemsSum exReceipt)
          ++ (footIssued exReceipt ++ "2025-01-01 12:00:00" ++ footTail) := by
  have h := claim_C5_receipt_rendering exReceipt "2025-01-01 12:00:00"
  constructor
  · have hx := h.1 { name := "Shirt", size := "M", price := 700, quantity := 3 } (by decide)
    simpa using hx
  · exact h.2.2.1 (by norm_num [receiptItemsSum, exReceipt])

/-- Witness for C6 at a concrete receipt. -/
theorem claim_C6_witness :
    (∃ p q : String, ∀ ts : String,
        generate_receipt_html exReceipt ts = p ++ ts ++ q)
    ∧ generate_receipt_html exReceipt "t0" = generate_receipt_html exReceipt "t0" := by
  have h := claim_C6_render_deterministic_modulo_timestamp exReceipt
  exact ⟨h.1, h.2 "t0" "t0" rfl⟩

/-- Witness for C7 in an environment where the first execution hits the
broken-connection error and the retry fails differently: two executions,
one reconnect, `None` result (fetch mode). -/
theorem claim_C7_witness :
    ((execute_query exQueryEnv true).1 = failValue true
      ∨ ∃ rs, (execute_query exQueryEnv true).1 = okValue true rs)
    ∧ (execute_query exQueryEnv true).2.1 = 2
    ∧ (execute_query exQueryEnv true).2.2 = 1
    ∧ (execute_query exQueryEnv true).1 = failValue true := by
  have h := claim_C7_gateway_retry_once_no_exception exQueryEnv true
  have h3 := h.2.2 rfl (by decide) rfl rfl
  exact ⟨h.1, h3.1, h3.2.1, h3.2.2 (fun rs => by simp [exQueryEnv])⟩

/-- Witness for C8: the receipt carries the sale's id; without receipt
generation the sale still gets "REC-2" and no receipt row holds it. -/
theorem claim_C8_witness :
    (mkReceiptData exSaleReq "REC-1" "System").receipt_id = "REC-1"
    ∧ (mkSaleRow exSaleReq "REC-1").receipt_id = "REC-1"
    ∧ (record_sale true exDB exSaleReq "REC-1" "System" 1).receipts
        = exDB.receipts ++ [mkReceiptData exSaleReq "REC-1" "System"]
    ∧ (record_sale true exDB exNoReceiptReq "REC-2" "System" 1).receipts = exDB.receipts
    ∧ (∀ rr ∈ (record_sale true exDB exNoReceiptReq "REC-2" "System" 1).receipts,
        rr.receipt_id ≠ "REC-2") := by
  have h1 := claim_C8_receipt_sale_link exDB exSaleReq "REC-1" "System" 1 exShirtRow
    (by decide) (by decide) (by decide) (by decide) (by decide)
  have h2 := claim_C8_receipt_sale_link exDB exNoReceiptReq "REC-2" "System" 1 exShirtRow
    (by decide) (by decide) (by decide) (by decide) (by decide)
  exact ⟨h1.1.2.2.1, h1.1.2.2.2.1, h1.2.1 rfl, (h2.2.2 rfl).1,
    (h2.2.2 rfl).2 (by decide)⟩

/-- Witness for C9 at the example stock: sales table untouched, metadata
columns preserved, quantity moved by the decrement. -/
theorem claim_C9_witness :
    (update_stock exDB "Shirt" "M" (-3) 1).uniform_sales = exDB.uniform_sales
    ∧ (bumpRow (-3) 1 exShirtRow).unit_cost = exShirtRow.unit_cost
    ∧ (bumpRow (-3) 1 exShirtRow).supplier = exShirtRow.supplier
    ∧ (bumpRow (-3) 1 exShirtRow).quantity = exShirtRow.quantity + (-3) := by
  have h := claim_C9_update_stock_frame exDB "Shirt" "M" (-3) 1
  have hpoint := h.2.2.2.2 0 exShirtRow (bumpRow (-3) 1 exShirtRow)
    (by decide) (by decide)
  exact ⟨h.2.1, hpoint.1.2.2.1, hpoint.1.2.2.2.1, (hpoint.2.1 ⟨rfl, rfl⟩).1⟩

end SchoolTracker
